import Mathlib

/-!
Shallow embedding of the x402-oracle-paywall session/credit engine
(src/chains.ts, src/session.ts, src/storage.ts, src/storage-async.ts).

Conventions of the embedding:
* JS `number` values used as integers (credits, amounts, timestamps) become `Int`.
* `Date.now()` becomes an explicit `now : Int` argument; `crypto.randomBytes`
  session ids become an explicit `freshId : String` argument.
* The default storage backend (`useKV = false`) is the SQLite `StorageManager`:
  the `sessions` table (PRIMARY KEY id) becomes a list with insert-or-replace
  keyed by `id`; the `used_signatures` table (PRIMARY KEY signature, with a
  `chain` column) becomes a list of `UsedSig` rows where insertion is ignored
  whenever a row with the same `signature` already exists (INSERT OR IGNORE on
  the signature primary key), while `isSignatureUsed` filters on both columns.
* On-chain RPC responses are explicit inputs (`World`); a thrown/failed RPC
  call is the corresponding `Option.none`.
-/

/-- JS `String.prototype.toLowerCase()` on the ASCII identifiers involved,
as a character-list map (kernel-reducible, unlike the byte-position loop of
core `String.toLower`). -/
def strLower (s : String) : String :=
  ⟨s.data.map Char.toLower⟩

/-- JS `String.prototype.toUpperCase()` on the ASCII identifiers involved. -/
def strUpper (s : String) : String :=
  ⟨s.data.map Char.toUpper⟩

/-- JS `String.prototype.startsWith(pre)`. -/
def strStartsWith (s pre : String) : Bool :=
  pre.data.isPrefixOf s.data

/-- JS `String.prototype.slice(n)` (drop the first `n` characters). -/
def strDrop (s : String) (n : Nat) : String :=
  ⟨s.data.drop n⟩

/-- `TokenConfig` from chains.ts. -/
structure TokenConfig where
  mint : String
  symbol : String
  decimals : Nat
  pricePerQuery : Int
deriving Repr, DecidableEq

/-- `ChainConfig` from chains.ts (the `rpcUrl` field is irrelevant to the
verified logic and omitted; `tokens` is the symbol-keyed record). -/
structure ChainConfig where
  name : String
  tokens : List (String × TokenConfig)
deriving Repr, DecidableEq

/-- JS object lookup on a string-keyed record, as an association list. -/
def lookupAssoc {α : Type} (l : List (String × α)) (k : String) : Option α :=
  (l.find? (fun p => p.1 == k)).map (fun p => p.2)

/-- The static `CHAINS` registry from chains.ts. -/
def CHAINS : List (String × ChainConfig) :=
  [ ("solana-devnet",
     { name := "Solana Devnet",
       tokens :=
        [ ("USDC", { mint := "4zMMC9srt5Ri5X14GAgXhaHii3GnPAEERYPJgZJDncDU",
                     symbol := "USDC", decimals := 6, pricePerQuery := 100 }),
          ("USDT", { mint := "Es9vMFrzaCERmJfrF4H2FYD4KCoNkY11McCe8BenwNYB",
                     symbol := "USDT", decimals := 6, pricePerQuery := 100 }),
          ("SOL",  { mint := "So11111111111111111111111111111111111111112",
                     symbol := "SOL", decimals := 9, pricePerQuery := 500 }) ] }),
    ("solana-mainnet",
     { name := "Solana Mainnet",
       tokens :=
        [ ("USDC", { mint := "EPjFWdd5AufqSSqeM2qN1xzybapC8G4wEGGkZwyTDt1v",
                     symbol := "USDC", decimals := 6, pricePerQuery := 100 }),
          ("USDT", { mint := "Es9vMFrzaCERmJfrF4H2FYD4KCoNkY11McCe8BenwNYB",
                     symbol := "USDT", decimals := 6, pricePerQuery := 100 }),
          ("SOL",  { mint := "So11111111111111111111111111111111111111112",
                     symbol := "SOL", decimals := 9, pricePerQuery := 500 }) ] }),
    ("base",
     { name := "Base",
       tokens :=
        [ ("USDC", { mint := "0x833589fCD6eDb6E08f4c7C32D4f71b54bdA02913",
                     symbol := "USDC", decimals := 6, pricePerQuery := 100 }),
          ("ETH",  { mint := "0x0000000000000000000000000000000000000000",
                     symbol := "ETH", decimals := 18, pricePerQuery := 50000000000000 }) ] }),
    ("base-sepolia",
     { name := "Base Sepolia",
       tokens :=
        [ ("USDC", { mint := "0x036CbD53842c5426634e7929541eC2318f3dCF7e",
                     symbol := "USDC", decimals := 6, pricePerQuery := 100 }),
          ("ETH",  { mint := "0x0000000000000000000000000000000000000000",
                     symbol := "ETH", decimals := 18, pricePerQuery := 50000000000000 }) ] }),
    ("ethereum",
     { name := "Ethereum",
       tokens :=
        [ ("USDC", { mint := "0xA0b86991c6218b36c1d19D4a2e9Eb0cE3606eB48",
                     symbol := "USDC", decimals := 6, pricePerQuery := 100 }),
          ("USDT", { mint := "0xdAC17F958D2ee523a2206206994597C13D831ec7",
                     symbol := "USDT", decimals := 6, pricePerQuery := 100 }),
          ("ETH",  { mint := "0x0000000000000000000000000000000000000000",
                     symbol := "ETH", decimals := 18, pricePerQuery := 50000000000000 }) ] }),
    ("arbitrum",
     { name := "Arbitrum One",
       tokens :=
        [ ("USDC", { mint := "0xaf88d065e77c8cC2239327C5EDb3A432268e5831",
                     symbol := "USDC", decimals := 6, pricePerQuery := 100 }),
          ("ETH",  { mint := "0x0000000000000000000000000000000000000000",
                     symbol := "ETH", decimals := 18, pricePerQuery := 50000000000000 }) ] }),
    ("polygon",
     { name := "Polygon",
       tokens :=
        [ ("USDC", { mint := "0x3c499c542cEF5E3811e1192ce70d8cC03d5c3359",
                     symbol := "USDC", decimals := 6, pricePerQuery := 100 }),
          ("MATIC", { mint := "0x0000000000000000000000000000000000000000",
                      symbol := "MATIC", decimals := 18, pricePerQuery := 100000000000000000 }) ] }),
    ("bsc",
     { name := "BNB Chain",
       tokens :=
        [ ("USDC", { mint := "0x8AC76a51cc950d9822D68b83fE1Ad97B32Cd580d",
                     symbol := "USDC", decimals := 18, pricePerQuery := 100000000000000 }),
          ("USDT", { mint := "0x55d398326f99059fF775485246999027B3197955",
                     symbol := "USDT", decimals := 18, pricePerQuery := 100000000000000 }),
          ("BNB",  { mint := "0x0000000000000000000000000000000000000000",
                     symbol := "BNB", decimals := 18, pricePerQuery := 200000000000000 }) ] }) ]

/-- `getChain` from chains.ts: `CHAINS[chainId.toLowerCase()] || null`. -/
def getChain (chainId : String) : Option ChainConfig :=
  lookupAssoc CHAINS (strLower chainId)

/-- `getSupportedChains` from chains.ts: `Object.keys(CHAINS)`. -/
def getSupportedChains : List String :=
  CHAINS.map (fun p => p.1)

/-- `isSolanaChain` from chains.ts. -/
def isSolanaChain (chainId : String) : Bool :=
  strStartsWith chainId "solana"

/-- `isEVMChain` from chains.ts. -/
def isEVMChain (chainId : String) : Bool :=
  !strStartsWith chainId "solana"

/-- `Session` from session.ts. -/
structure Session where
  id : String
  walletAddress : String
  chain : String
  depositTxSignature : String
  depositToken : String
  totalCredits : Int
  remainingCredits : Int
  createdAt : Int
  expiresAt : Int
  lastUsedAt : Int
deriving Repr, DecidableEq

/-- A row of the SQLite `used_signatures` table (storage.ts); the `used_at`
column is never read back and is omitted. -/
structure UsedSig where
  signature : String
  chain : String
deriving Repr, DecidableEq

/-- The persistent state owned by the SQLite `StorageManager` (storage.ts):
the `sessions` table and the `used_signatures` table. -/
structure Store where
  sessions : List Session
  usedSigs : List UsedSig
deriving Repr, DecidableEq

namespace StorageManager

/-- `StorageManager.saveSession`: `INSERT OR REPLACE` keyed by the session id
primary key. -/
def saveSession (st : Store) (s : Session) : Store :=
  { st with sessions := st.sessions.filter (fun t => t.id != s.id) ++ [s] }

/-- `StorageManager.getSession`: `SELECT * FROM sessions WHERE id = ?`. -/
def getSession (st : Store) (sessionId : String) : Option Session :=
  st.sessions.find? (fun s => s.id == sessionId)

/-- The `ORDER BY expires_at DESC LIMIT 1` selection: a row of maximal
`expires_at` among the candidates (first such row in list order). -/
def maxByExpires : List Session → Option Session :=
  List.foldl
    (fun acc s =>
      match acc with
      | none => some s
      | some t => if s.expiresAt > t.expiresAt then some s else some t)
    none

/-- `StorageManager.getSessionByWallet`:
`SELECT * FROM sessions WHERE wallet_address = ? AND chain = ? ORDER BY expires_at DESC LIMIT 1`. -/
def getSessionByWallet (st : Store) (walletAddress chain : String) : Option Session :=
  maxByExpires (st.sessions.filter (fun s => s.walletAddress == walletAddress && s.chain == chain))

/-- `StorageManager.deleteSession`: `DELETE FROM sessions WHERE id = ?`. -/
def deleteSession (st : Store) (sessionId : String) : Store :=
  { st with sessions := st.sessions.filter (fun s => s.id != sessionId) }

/-- `StorageManager.cleanupExpiredSessions`:
`DELETE FROM sessions WHERE expires_at < ?` with `? = Date.now()`; returns the
number of deleted rows. -/
def cleanupExpiredSessions (st : Store) (now : Int) : Nat × Store :=
  ((st.sessions.filter (fun s => s.expiresAt < now)).length,
   { st with sessions := st.sessions.filter (fun s => !(s.expiresAt < now)) })

/-- `StorageManager.isSignatureUsed`:
`SELECT 1 FROM used_signatures WHERE signature = ? AND chain = ?`. -/
def isSignatureUsed (st : Store) (signature chain : String) : Bool :=
  st.usedSigs.any (fun r => r.signature == signature && r.chain == chain)

/-- `StorageManager.markSignatureUsed`:
`INSERT OR IGNORE INTO used_signatures (signature, chain, used_at)`.
The table's primary key is `signature` alone, so the insert is ignored
whenever any row with the same signature exists, for any chain. -/
def markSignatureUsed (st : Store) (signature chain : String) : Store :=
  if st.usedSigs.any (fun r => r.signature == signature) then st
  else { st with usedSigs := st.usedSigs ++ [{ signature := signature, chain := chain }] }

end StorageManager

/-- `AsyncStorageAdapter.hasTransaction(chain, txSignature)` over the SQLite
backend forwards to `isSignatureUsed(txSignature, chain)` (storage-async.ts). -/
def hasTransaction (st : Store) (chain txSignature : String) : Bool :=
  StorageManager.isSignatureUsed st txSignature chain

/-- `SESSION_DURATION_MS = 24 * 60 * 60 * 1000` from session.ts. -/
def SESSION_DURATION_MS : Int := 24 * 60 * 60 * 1000

/-- The keys of the `EVM_CHAINS` record from session.ts (the viem chain
objects themselves carry no verified logic). -/
def EVM_CHAINS : List String :=
  ["base", "base-sepolia", "ethereum", "arbitrum", "polygon", "bsc"]

/-- The `SessionManager` constructor state that the verified operations read:
the runtime-configured recipient wallets and the default chain. -/
structure SessionManager where
  recipientWallets : List (String × String)
  defaultChain : String
deriving Repr, DecidableEq

/-- Result of `SessionManager.createSession`:
`SessionCreateResult | { error: string } | null`. The `null` return (used for
unsupported token, failed verification, and a credit total below 1) is the
`notVerified` constructor. -/
inductive CreateSessionResult where
  | success (sessionId : String) (totalCredits : Int) (expiresAt : Int) (token : String)
  | error (msg : String)
  | notVerified
deriving Repr, DecidableEq

namespace SessionManager

/-- `SessionManager.getTokenConfig`: token record lookup by upper-cased
symbol, `null` when the chain or the token is unknown. -/
def getTokenConfig (chainId tokenSymbol : String) : Option TokenConfig :=
  match getChain chainId with
  | none => none
  | some chain => lookupAssoc chain.tokens (strUpper tokenSymbol)

/-- The body of `SessionManager.createSession` (session.ts). The outcome of
the on-chain `verifyDeposit` RPC round-trip is the explicit `verified`
argument; the fresh random session id and `Date.now()` are the explicit
`freshId` and `now` arguments. -/
def createSession (m : SessionManager) (st : Store)
    (walletAddress chainId depositTxSignature : String) (depositAmount : Int)
    (tokenSymbol : String) (verified : Bool) (freshId : String) (now : Int) :
    CreateSessionResult × Store :=
  match getChain chainId with
  | none => (.error "Unsupported chain", st)
  | some _ =>
    if hasTransaction st chainId depositTxSignature then
      (.error "Transaction already used", st)
    else
      match getTokenConfig chainId tokenSymbol with
      | none => (.notVerified, st)
      | some token =>
        match lookupAssoc m.recipientWallets chainId with
        | none => (.error "No recipient configured for chain", st)
        | some recipient =>
          if recipient == "" then (.error "No recipient configured for chain", st)
          else if !verified then (.notVerified, st)
          else
            let st1 := StorageManager.markSignatureUsed st depositTxSignature chainId
            let totalCredits := Int.fdiv depositAmount token.pricePerQuery
            if totalCredits < 1 then (.notVerified, st1)
            else
              match StorageManager.getSessionByWallet st1 walletAddress chainId with
              | some existingSession =>
                if existingSession.expiresAt > now then
                  let merged : Session :=
                    { existingSession with
                      totalCredits := existingSession.totalCredits + totalCredits,
                      remainingCredits := existingSession.remainingCredits + totalCredits,
                      expiresAt := now + SESSION_DURATION_MS }
                  (.success merged.id merged.remainingCredits merged.expiresAt token.symbol,
                   StorageManager.saveSession st1 merged)
                else
                  let s : Session :=
                    { id := freshId, walletAddress := walletAddress, chain := chainId,
                      depositTxSignature := depositTxSignature, depositToken := token.symbol,
                      totalCredits := totalCredits, remainingCredits := totalCredits,
                      createdAt := now, expiresAt := now + SESSION_DURATION_MS, lastUsedAt := now }
                  (.success freshId totalCredits s.expiresAt token.symbol,
                   StorageManager.saveSession st1 s)
              | none =>
                let s : Session :=
                  { id := freshId, walletAddress := walletAddress, chain := chainId,
                    depositTxSignature := depositTxSignature, depositToken := token.symbol,
                    totalCredits := totalCredits, remainingCredits := totalCredits,
                    createdAt := now, expiresAt := now + SESSION_DURATION_MS, lastUsedAt := now }
                (.success freshId totalCredits s.expiresAt token.symbol,
                 StorageManager.saveSession st1 s)

/-- `SessionManager.getSession`: storage read with lazy expiry — an expired
record is eagerly deleted and `null` is returned. -/
def getSession (st : Store) (sessionId : String) (now : Int) :
    Option Session × Store :=
  match StorageManager.getSession st sessionId with
  | none => (none, st)
  | some session =>
    if session.expiresAt < now then (none, StorageManager.deleteSession st sessionId)
    else (some session, st)

/-- `SessionManager.getSessionByWallet`: wallet+chain storage read with the
same lazy expiry rule (deletes by the found session's id). -/
def getSessionByWallet (st : Store) (walletAddress chainId : String) (now : Int) :
    Option Session × Store :=
  match StorageManager.getSessionByWallet st walletAddress chainId with
  | none => (none, st)
  | some session =>
    if session.expiresAt < now then (none, StorageManager.deleteSession st session.id)
    else (some session, st)

/-- `SessionManager.useCredit` (session.ts). -/
def useCredit (st : Store) (sessionId : String) (now : Int) : Bool × Store :=
  match getSession st sessionId now with
  | (none, st1) => (false, st1)
  | (some session, st1) =>
    if session.remainingCredits ≤ 0 then (false, st1)
    else
      (true,
       StorageManager.saveSession st1
         { session with
           remainingCredits := session.remainingCredits - 1,
           lastUsedAt := now })

/-- The record returned by `SessionManager.getSessionStatus`. -/
structure SessionStatus where
  valid : Bool
  remainingCredits : Int
  totalCredits : Int
  expiresAt : Int
  queriesUsed : Int
deriving Repr, DecidableEq

/-- `SessionManager.getSessionStatus` (session.ts). -/
def getSessionStatus (st : Store) (sessionId : String) (now : Int) :
    Option SessionStatus × Store :=
  match getSession st sessionId now with
  | (none, st1) => (none, st1)
  | (some session, st1) =>
    (some { valid := session.remainingCredits > 0,
            remainingCredits := session.remainingCredits,
            totalCredits := session.totalCredits,
            expiresAt := session.expiresAt,
            queriesUsed := session.totalCredits - session.remainingCredits }, st1)

/-- `SessionManager.cleanupExpiredSessions`: delegates to the storage sweep. -/
def cleanupExpiredSessions (st : Store) (now : Int) : Nat × Store :=
  StorageManager.cleanupExpiredSessions st now

/-- One entry of `getPricingInfo`'s `supportedTokens` projection. The
`pricePerQueryUSD: 0.0001` field is a floating-point literal constant and is
omitted from the model. -/
structure PricingTokenInfo where
  symbol : String
  mint : String
  decimals : Nat
  pricePerQuery : String
deriving Repr, DecidableEq

/-- The record returned by `SessionManager.getPricingInfo`; a JS `undefined`
recipient wallet is `none`. -/
structure PricingInfo where
  chain : String
  recipientWallet : Option String
  sessionDurationMs : Int
  supportedChains : List String
  supportedTokens : List PricingTokenInfo
deriving Repr, DecidableEq

/-- `SessionManager.getPricingInfo` (session.ts); the JS
`chainId || this.defaultChain` treats a missing and an empty chain id alike. -/
def getPricingInfo (m : SessionManager) (chainId : Option String) : PricingInfo :=
  let targetChain :=
    match chainId with
    | some c => if c == "" then m.defaultChain else c
    | none => m.defaultChain
  { chain := targetChain,
    recipientWallet := lookupAssoc m.recipientWallets targetChain,
    sessionDurationMs := SESSION_DURATION_MS,
    supportedChains := getSupportedChains,
    supportedTokens :=
      match getChain targetChain with
      | some chain =>
        chain.tokens.map (fun p =>
          { symbol := p.2.symbol, mint := p.2.mint, decimals := p.2.decimals,
            pricePerQuery := toString p.2.pricePerQuery })
      | none => [] }

end SessionManager

/-- Hex digit test for the JS `BigInt(string)` model. -/
def isHexDigit (c : Char) : Bool :=
  c.isDigit || ( 'a' ≤ c && c ≤ 'f' ) || ( 'A' ≤ c && c ≤ 'F' )

/-- Value of a hex digit. -/
def hexDigitVal (c : Char) : Nat :=
  if c.isDigit then c.toNat - '0'.toNat
  else if 'a' ≤ c && c ≤ 'f' then c.toNat - 'a'.toNat + 10
  else c.toNat - 'A'.toNat + 10

/-- Model of the JS `BigInt(string)` conversion on the strings that occur as
EVM log `data` fields: the empty string converts to 0, a `0x`-prefixed string
converts from hex when every remaining character is a hex digit (at least
one), a plain digit string converts from decimal, and anything else throws
(`none`). -/
def jsBigInt (s : String) : Option Int :=
  if s = "" then some 0
  else if strStartsWith s "0x" then
    let digits := (strDrop s 2).data
    if !digits.isEmpty && digits.all isHexDigit then
      some (Int.ofNat (digits.foldl (fun acc c => 16 * acc + hexDigitVal c) 0))
    else none
  else if s.data.all Char.isDigit then
    some (Int.ofNat (s.data.foldl (fun acc c => 10 * acc + (c.toNat - '0'.toNat)) 0))
  else none

/-- One entry of an EVM transaction receipt's `logs` array, as read by
`verifyEVMDeposit`: emitting contract address, topics, and the `data` field. -/
structure EvmLog where
  address : String
  topics : List String
  data : String
deriving Repr, DecidableEq

/-- The fields of a viem transaction receipt that `verifyEVMDeposit` reads. -/
structure EvmReceipt where
  status : String
  logs : List EvmLog
deriving Repr, DecidableEq

/-- The fields of a viem transaction that the native-token branch of
`verifyEVMDeposit` reads; `toAddr` is the transaction's `to` field, `null`
for contract-creation transactions. -/
structure EvmTx where
  toAddr : Option String
  value : Int
deriving Repr, DecidableEq

/-- The body of the per-log check inside `verifyEVMDeposit`'s loop: every
`continue` is a `false`, the `return true` is a `true`, and the `try/catch`
around `BigInt(log.data)` skips a log whose data does not parse. -/
def evmLogMatches (tokenMint recipientLower : String) (expectedAmount : Int)
    (log : EvmLog) : Bool :=
  if strLower log.address != strLower tokenMint then false
  else if log.topics.length < 3 then false
  else
    match log.topics.get? 2 with
    | none => false
    | some topic2 =>
      if strLower ("0x" ++ strDrop topic2 26) != recipientLower then false
      else
        match jsBigInt log.data with
        | none => false
        | some value => expectedAmount ≤ value

/-- `SessionManager.verifyEVMDeposit` (session.ts) after the client lookup:
the receipt and (for the native branch) the transaction are the RPC responses,
`none` standing for a not-found/thrown fetch, which the surrounding
`try/catch` turns into `false`. -/
def verifyEVMDeposit (receipt : Option EvmReceipt) (tx : Option EvmTx)
    (expectedRecipient tokenMint : String) (expectedAmount : Int) : Bool :=
  match receipt with
  | none => false
  | some r =>
    if r.status != "success" then false
    else
      let recipientLower := strLower expectedRecipient
      let isNativeToken := tokenMint == "0x0000000000000000000000000000000000000000"
      if isNativeToken then
        match tx with
        | none => false
        | some t =>
          match t.toAddr with
          | none => false
          | some dest => strLower dest == recipientLower && expectedAmount ≤ t.value
      else
        r.logs.any (evmLogMatches tokenMint recipientLower expectedAmount)

/-- The fields of a fetched Solana transaction that `verifySolanaDeposit`
reads: `metaErr` is the truthiness of `tx.meta?.err`. -/
structure SolanaTx where
  metaErr : Bool
deriving Repr, DecidableEq

/-- `SessionManager.verifySolanaDeposit` (session.ts): connection lookup, then
`getTransaction` at confirmed commitment (`none` = null or thrown, both turned
into `false`), then `tx !== null && !tx.meta?.err`. -/
def verifySolanaDeposit (hasConnection : Bool) (fetched : Option SolanaTx) : Bool :=
  if !hasConnection then false
  else
    match fetched with
    | none => false
    | some tx => !tx.metaErr

/-- The chain ids for which the constructor populates the Solana `connections`
map: every registry chain with a `solana` prefix. -/
def solanaConnections : List String :=
  getSupportedChains.filter isSolanaChain

/-- The chain ids for which the constructor populates the `evmClients` map:
every registry chain that is also a key of `EVM_CHAINS`. -/
def evmClientChains : List String :=
  getSupportedChains.filter (fun c => !isSolanaChain c && EVM_CHAINS.contains c)

/-- The per-session credit invariant: `0 ≤ remainingCredits ≤ totalCredits`. -/
def sessionOK (s : Session) : Prop :=
  0 ≤ s.remainingCredits ∧ s.remainingCredits ≤ s.totalCredits

instance (s : Session) : Decidable (sessionOK s) := by
  unfold sessionOK; infer_instance

/-- The store-wide credit invariant. -/
def storeInv (st : Store) : Prop :=
  ∀ s ∈ st.sessions, sessionOK s

instance (st : Store) : Decidable (storeInv st) := by
  unfold storeInv; infer_instance

/-- The RPC responses visible to one `verifyDeposit` call. -/
structure World where
  solanaTx : Option SolanaTx
  receipt : Option EvmReceipt
  tx : Option EvmTx
deriving Repr, DecidableEq

/-- `SessionManager.verifyDeposit` (session.ts): family dispatch on the chain
id; the per-family `if (!connection)` / `if (!client)` guards are the
membership tests in the constructor-populated maps. `w` holds the RPC
responses for the transaction named by `signature`. -/
def verifyDeposit (w : World) (chainId _signature : String)
    (expectedRecipient tokenMint : String) (expectedAmount : Int) : Bool :=
  if isSolanaChain chainId then
    verifySolanaDeposit (solanaConnections.contains chainId) w.solanaTx
  else if isEVMChain chainId then
    if evmClientChains.contains chainId then
      verifyEVMDeposit w.receipt w.tx expectedRecipient tokenMint expectedAmount
    else false
  else false

/-! ### Helper lemmas about the storage model -/

theorem sessions_markSignatureUsed (st : Store) (sig c : String) :
    (StorageManager.markSignatureUsed st sig c).sessions = st.sessions := by
  unfold StorageManager.markSignatureUsed
  split <;> rfl

theorem maxByExpires_mem {l : List Session} {s : Session}
    (h : StorageManager.maxByExpires l = some s) : s ∈ l := by
  unfold StorageManager.maxByExpires at h
  suffices H : ∀ (l : List Session) (acc : Option Session) (s : Session),
      List.foldl
        (fun acc s =>
          match acc with
          | none => some s
          | some t => if s.expiresAt > t.expiresAt then some s else some t)
        acc l = some s → s ∈ l ∨ acc = some s by
    rcases H l none s h with h' | h'
    · exact h'
    · cases h'
  intro l
  induction l with
  | nil => intro acc s h; exact Or.inr h
  | cons a as ih =>
    intro acc s h
    simp only [List.foldl_cons] at h
    rcases ih _ s h with h' | h'
    · exact Or.inl (List.mem_cons_of_mem _ h')
    · match acc with
      | none =>
        simp only at h'
        cases h'
        exact Or.inl (List.mem_cons_self _ _)
      | some t =>
        simp only at h'
        split at h'
        · cases h'; exact Or.inl (List.mem_cons_self _ _)
        · exact Or.inr h'

theorem mem_of_getSessionByWallet {st : Store} {w c : String} {s : Session}
    (h : StorageManager.getSessionByWallet st w c = some s) : s ∈ st.sessions := by
  unfold StorageManager.getSessionByWallet at h
  exact List.mem_of_mem_filter (maxByExpires_mem h)

theorem mem_of_getSession {st : Store} {i : String} {s : Session}
    (h : StorageManager.getSession st i = some s) : s ∈ st.sessions :=
  List.mem_of_find?_eq_some h

theorem id_of_getSession {st : Store} {i : String} {s : Session}
    (h : StorageManager.getSession st i = some s) : s.id = i := by
  have := List.find?_some h
  simpa using this

theorem storeInv_saveSession {st : Store} {s : Session}
    (h : storeInv st) (hs : sessionOK s) : storeInv (StorageManager.saveSession st s) := by
  intro t ht
  unfold StorageManager.saveSession at ht
  simp only [List.mem_append, List.mem_filter, List.mem_singleton] at ht
  rcases ht with ⟨ht, _⟩ | rfl
  · exact h t ht
  · exact hs

theorem storeInv_deleteSession {st : Store} {i : String}
    (h : storeInv st) : storeInv (StorageManager.deleteSession st i) := by
  intro t ht
  unfold StorageManager.deleteSession at ht
  exact h t (List.mem_of_mem_filter ht)

theorem getSession_saveSession (st : Store) (s : Session) :
    StorageManager.getSession (StorageManager.saveSession st s) s.id = some s := by
  unfold StorageManager.getSession StorageManager.saveSession
  rw [List.find?_append]
  have hnone : (st.sessions.filter (fun t => t.id != s.id)).find? (fun t => t.id == s.id) = none := by
    rw [List.find?_eq_none]
    intro t ht
    have := (List.mem_filter.mp ht).2
    simpa using this
  simp [hnone]

theorem storeInv_createSession (m : SessionManager) (st : Store)
    (w c sig : String) (amt : Int) (tok : String) (v : Bool) (fid : String) (now : Int)
    (h : storeInv st) :
    storeInv (SessionManager.createSession m st w c sig amt tok v fid now).2 := by
  have h1 : storeInv (StorageManager.markSignatureUsed st sig c) := by
    intro t ht
    rw [sessions_markSignatureUsed] at ht
    exact h t ht
  unfold SessionManager.createSession
  split
  · exact h
  split
  · exact h
  split
  · exact h
  next token _ =>
  split
  · exact h
  split
  · exact h
  split
  · exact h
  dsimp only
  split
  · exact h1
  next hcred =>
  have hcred' : 1 ≤ Int.fdiv amt token.pricePerQuery := by omega
  split
  next ex hex =>
    split
    · refine storeInv_saveSession h1 ?_
      have hmem : ex ∈ (StorageManager.markSignatureUsed st sig c).sessions :=
        mem_of_getSessionByWallet hex
      have hok := h1 ex hmem
      unfold sessionOK at hok ⊢
      dsimp only
      omega
    · refine storeInv_saveSession h1 ?_
      unfold sessionOK
      dsimp only
      omega
  · refine storeInv_saveSession h1 ?_
    unfold sessionOK
    dsimp only
    omega

theorem storeInv_useCredit (st : Store) (i : String) (now : Int)
    (h : storeInv st) : storeInv (SessionManager.useCredit st i now).2 := by
  unfold SessionManager.useCredit SessionManager.getSession
  split
  next heq =>
    split at heq
    · cases heq
      exact h
    · split at heq
      · cases heq
        exact storeInv_deleteSession h
      · cases heq
  next s st1 heq =>
    split at heq
    · cases heq
    · split at heq
      · cases heq
      · cases heq
        split
        · exact h
        next hrem =>
          next hfound _ =>
            refine storeInv_saveSession h ?_
            have hok := h s (mem_of_getSession hfound)
            unfold sessionOK at hok ⊢
            dsimp only
            omega

theorem storeInv_getSession (st : Store) (i : String) (now : Int)
    (h : storeInv st) : storeInv (SessionManager.getSession st i now).2 := by
  unfold SessionManager.getSession
  split
  · exact h
  split
  · exact storeInv_deleteSession h
  · exact h

theorem storeInv_cleanup (st : Store) (now : Int)
    (h : storeInv st) : storeInv (SessionManager.cleanupExpiredSessions st now).2 := by
  intro t ht
  unfold SessionManager.cleanupExpiredSessions StorageManager.cleanupExpiredSessions at ht
  exact h t (List.mem_of_mem_filter ht)

/-! ### Concrete fixtures used by witnesses and counterexamples -/

/-- A session manager configured like the server: recipient wallets only for
registry chains. -/
def mgr0 : SessionManager :=
  { recipientWallets :=
      [("ethereum", "rcpt-eth"), ("base", "rcpt-base"), ("solana-devnet", "rcpt-sol")],
    defaultChain := "solana-devnet" }

/-- The empty store. -/
def emptyStore : Store := { sessions := [], usedSigs := [] }

/-- A stored session on `base` for wallet `w1` with 5 of 10 credits left. -/
def sess1 : Session :=
  { id := "s1", walletAddress := "w1", chain := "base", depositTxSignature := "tx0",
    depositToken := "USDC", totalCredits := 10, remainingCredits := 5,
    createdAt := 0, expiresAt := 1000, lastUsedAt := 0 }

/-- A store holding only `sess1`. -/
def store1 : Store := { sessions := [sess1], usedSigs := [] }

/-- A store whose `used_signatures` table already holds `sigT` for chain
`ethereum`. -/
def storeUsedEth : Store :=
  { sessions := [], usedSigs := [{ signature := "sigT", chain := "ethereum" }] }

/-! ### Claim theorems -/

/-- C1: the claim says that once a (chain, txRef) pair has been marked
consumed by a `createSession` call, every later `createSession` with the same
pair returns the 'Transaction already used' error and neither creates nor
merges a session. The code violates this: `used_signatures` has PRIMARY KEY
`signature` alone, so after `sigT` is consumed on `ethereum`, the
`INSERT OR IGNORE` for (`sigT`, `base`) is silently dropped; the pair
(`base`, `sigT`) is consumed by the second call, yet a third call with the
same pair succeeds again (creating a fresh session) instead of returning
'Transaction already used'. -/
theorem c1_cross_chain_replay :
    (let r1 := SessionManager.createSession mgr0 emptyStore "w1" "ethereum" "sigT" 1000 "USDC" true "id1" 0
     let r2 := SessionManager.createSession mgr0 r1.2 "w2" "base" "sigT" 1000 "USDC" true "id2" 0
     let r3 := SessionManager.createSession mgr0 r2.2 "w3" "base" "sigT" 1000 "USDC" true "id3" 0
     r2.1 = .success "id2" 10 86400000 "USDC" ∧
     hasTransaction r2.2 "base" "sigT" = false ∧
     r3.1 = .success "id3" 10 86400000 "USDC" ∧
     r3.1 ≠ .error "Transaction already used" ∧
     r3.2.sessions.length = 3) := by decide

/-- C2: every operation (`createSession`, `useCredit`, `getSession`,
`cleanupExpiredSessions`) preserves the invariant
`0 ≤ remainingCredits ≤ totalCredits` on every stored session. -/
theorem c2_credit_invariant (m : SessionManager) (st : Store)
    (w c sig : String) (amt : Int) (tok : String) (v : Bool) (fid i : String)
    (now : Int) (h : storeInv st) :
    storeInv (SessionManager.createSession m st w c sig amt tok v fid now).2 ∧
    storeInv (SessionManager.useCredit st i now).2 ∧
    storeInv (SessionManager.getSession st i now).2 ∧
    storeInv (SessionManager.cleanupExpiredSessions st now).2 :=
  ⟨storeInv_createSession m st w c sig amt tok v fid now h,
   storeInv_useCredit st i now h,
   storeInv_getSession st i now h,
   storeInv_cleanup st now h⟩

/-- Witness for C2 at a concrete store and concrete operations. -/
theorem c2_credit_invariant_witness :
    storeInv (SessionManager.createSession mgr0 store1 "w1" "base" "tx1" 1000 "USDC" true "f1" 500).2 ∧
    storeInv (SessionManager.useCredit store1 "s1" 500).2 ∧
    storeInv (SessionManager.getSession store1 "s1" 500).2 ∧
    storeInv (SessionManager.cleanupExpiredSessions store1 500).2 :=
  c2_credit_invariant mgr0 store1 "w1" "base" "tx1" 1000 "USDC" true "f1" "s1" 500 (by decide)

/-- C3: `useCredit` returns false (and performs no decrement) when the
session is absent, expired, or out of credits, and otherwise decrements
`remainingCredits` by exactly 1, updates `lastUsedAt`, persists the updated
session, and returns true. -/
theorem c3_useCredit_spec (st : Store) (i : String) (now : Int) :
    (StorageManager.getSession st i = none →
      SessionManager.useCredit st i now = (false, st)) ∧
    (∀ s, StorageManager.getSession st i = some s → s.expiresAt < now →
      SessionManager.useCredit st i now = (false, StorageManager.deleteSession st i)) ∧
    (∀ s, StorageManager.getSession st i = some s → ¬ s.expiresAt < now →
      s.remainingCredits ≤ 0 →
      SessionManager.useCredit st i now = (false, st)) ∧
    (∀ s, StorageManager.getSession st i = some s → ¬ s.expiresAt < now →
      0 < s.remainingCredits →
      (SessionManager.useCredit st i now).1 = true ∧
      (SessionManager.useCredit st i now).2 =
        StorageManager.saveSession st
          { s with remainingCredits := s.remainingCredits - 1, lastUsedAt := now } ∧
      StorageManager.getSession (SessionManager.useCredit st i now).2 i =
        some { s with remainingCredits := s.remainingCredits - 1, lastUsedAt := now }) := by
  refine ⟨?_, ?_, ?_, ?_⟩
  · intro h0
    have hg : SessionManager.getSession st i now = (none, st) := by
      unfold SessionManager.getSession
      rw [h0]
    unfold SessionManager.useCredit
    rw [hg]
  · intro s h0 hexp
    have hg : SessionManager.getSession st i now = (none, StorageManager.deleteSession st i) := by
      unfold SessionManager.getSession
      rw [h0]
      simp [hexp]
    unfold SessionManager.useCredit
    rw [hg]
  · intro s h0 hexp hle
    have hg : SessionManager.getSession st i now = (some s, st) := by
      unfold SessionManager.getSession
      rw [h0]
      simp [hexp]
    unfold SessionManager.useCredit
    rw [hg]
    simp [hle]
  · intro s h0 hexp hpos
    have hg : SessionManager.getSession st i now = (some s, st) := by
      unfold SessionManager.getSession
      rw [h0]
      simp [hexp]
    have hne : ¬ s.remainingCredits ≤ 0 := by omega
    have hid : s.id = i := id_of_getSession h0
    have hu : SessionManager.useCredit st i now =
        (true, StorageManager.saveSession st
          { s with remainingCredits := s.remainingCredits - 1, lastUsedAt := now }) := by
      unfold SessionManager.useCredit
      rw [hg]
      simp [hne]
    refine ⟨by rw [hu], by rw [hu], ?_⟩
    rw [hu]
    have := getSession_saveSession st
      { s with remainingCredits := s.remainingCredits - 1, lastUsedAt := now }
    simpa [hid] using this

/-- Witness for C3: all four cases at concrete stores. -/
theorem c3_useCredit_spec_witness :
    SessionManager.useCredit emptyStore "s1" 500 = (false, emptyStore) ∧
    SessionManager.useCredit store1 "s1" 2000 = (false, StorageManager.deleteSession store1 "s1") ∧
    (SessionManager.useCredit store1 "s1" 500).1 = true ∧
    StorageManager.getSession (SessionManager.useCredit store1 "s1" 500).2 "s1" =
      some { sess1 with remainingCredits := 4, lastUsedAt := 500 } := by
  refine ⟨(c3_useCredit_spec emptyStore "s1" 500).1 (by decide),
          (c3_useCredit_spec store1 "s1" 2000).2.1 sess1 (by decide) (by decide),
          ((c3_useCredit_spec store1 "s1" 500).2.2.2 sess1 (by decide) (by decide) (by decide)).1,
          ?_⟩
  have h := ((c3_useCredit_spec store1 "s1" 500).2.2.2 sess1 (by decide) (by decide) (by decide)).2.2
  exact h

theorem markSignatureUsed_fresh (st : Store) (sig c : String)
    (h : ∀ r ∈ st.usedSigs, r.signature ≠ sig) :
    hasTransaction (StorageManager.markSignatureUsed st sig c) c sig = true := by
  have hany : st.usedSigs.any (fun r => r.signature == sig) = false := by
    rw [List.any_eq_false]
    intro r hr
    simpa using h r hr
  unfold hasTransaction StorageManager.isSignatureUsed StorageManager.markSignatureUsed
  simp [hany]

theorem hasTransaction_false_of_fresh (st : Store) (sig c : String)
    (h : ∀ r ∈ st.usedSigs, r.signature ≠ sig) :
    hasTransaction st c sig = false := by
  unfold hasTransaction StorageManager.isSignatureUsed
  rw [List.any_eq_false]
  intro r hr
  simp only [Bool.and_eq_true, beq_iff_eq, not_and]
  intro hs
  exact absurd hs (h r hr)

theorem getChain_of_getTokenConfig {c tok : String} {token : TokenConfig}
    (h : SessionManager.getTokenConfig c tok = some token) :
    ∃ ch, getChain c = some ch := by
  unfold SessionManager.getTokenConfig at h
  cases hch : getChain c with
  | none => rw [hch] at h; cases h
  | some ch => exact ⟨ch, rfl⟩

/-- C4 counterexample: the claim asserts that after a verified deposit whose
credit total is below 1, the (chain, txRef) pair has been marked consumed, so
a retry returns 'Transaction already used'. With `sigT` already consumed on
`ethereum`, a verified zero-credit deposit of the same signature on `base`
returns null, but the mark is silently ignored and the retry returns null
again, not the 'Transaction already used' error. -/
theorem c4_counterexample :
    (let r1 := SessionManager.createSession mgr0 storeUsedEth "w1" "base" "sigT" 50 "USDC" true "id1" 0
     let r2 := SessionManager.createSession mgr0 r1.2 "w1" "base" "sigT" 50 "USDC" true "id2" 0
     r1.1 = .notVerified ∧ r2.1 = .notVerified ∧
     r2.1 ≠ .error "Transaction already used") := by decide

/-- C4 (amended): a verified deposit whose credit total is below 1 returns
not-verified (null) and neither creates nor merges a session; provided the
transaction reference has not been consumed under any chain before the call,
the (chain, txRef) pair is marked consumed before the credit computation, and
every retry of the same (chain, txRef) returns 'Transaction already used'. -/
theorem c4_amended (m : SessionManager) (st : Store) (w c sig : String)
    (amt : Int) (tok fid : String) (now : Int) (token : TokenConfig) (rcpt : String)
    (hfresh : ∀ r ∈ st.usedSigs, r.signature ≠ sig)
    (htok : SessionManager.getTokenConfig c tok = some token)
    (hrec : lookupAssoc m.recipientWallets c = some rcpt)
    (hrcpt : rcpt ≠ "")
    (hcred : Int.fdiv amt token.pricePerQuery < 1) :
    SessionManager.createSession m st w c sig amt tok true fid now =
      (.notVerified, StorageManager.markSignatureUsed st sig c) ∧
    (StorageManager.markSignatureUsed st sig c).sessions = st.sessions ∧
    hasTransaction (StorageManager.markSignatureUsed st sig c) c sig = true ∧
    (∀ w2 amt2 tok2 fid2 now2, ∀ v2 : Bool,
      SessionManager.createSession m (StorageManager.markSignatureUsed st sig c)
        w2 c sig amt2 tok2 v2 fid2 now2 =
        (.error "Transaction already used", StorageManager.markSignatureUsed st sig c)) := by
  obtain ⟨ch, hch⟩ := getChain_of_getTokenConfig htok
  have hused : hasTransaction st c sig = false := hasTransaction_false_of_fresh st sig c hfresh
  refine ⟨?_, sessions_markSignatureUsed st sig c, markSignatureUsed_fresh st sig c hfresh, ?_⟩
  · unfold SessionManager.createSession
    rw [hch, hused, htok, hrec]
    simp [hrcpt, hcred]
  · intro w2 amt2 tok2 fid2 now2 v2
    have htrue : hasTransaction (StorageManager.markSignatureUsed st sig c) c sig = true :=
      markSignatureUsed_fresh st sig c hfresh
    unfold SessionManager.createSession
    rw [hch, htrue]
    rfl

/-- Witness for C4 (amended) at a fresh signature on `base`. -/
theorem c4_amended_witness :
    SessionManager.createSession mgr0 emptyStore "w1" "base" "sigF" 50 "USDC" true "id1" 0 =
      (.notVerified, StorageManager.markSignatureUsed emptyStore "sigF" "base") ∧
    SessionManager.createSession mgr0 (StorageManager.markSignatureUsed emptyStore "sigF" "base")
      "w1" "base" "sigF" 50 "USDC" true "id2" 0 =
      (.error "Transaction already used", StorageManager.markSignatureUsed emptyStore "sigF" "base") := by
  have h := c4_amended mgr0 emptyStore "w1" "base" "sigF" 50 "USDC" "id1" 0
    { mint := "0x833589fCD6eDb6E08f4c7C32D4f71b54bdA02913",
      symbol := "USDC", decimals := 6, pricePerQuery := 100 }
    "rcpt-base" (by decide) (by decide) (by decide) (by decide) (by decide)
  exact ⟨h.1, h.2.2.2 "w1" 50 "USDC" "id2" 0 true⟩

theorem getSessionByWallet_mark (st : Store) (sig c w ch : String) :
    StorageManager.getSessionByWallet (StorageManager.markSignatureUsed st sig c) w ch =
      StorageManager.getSessionByWallet st w ch := by
  unfold StorageManager.getSessionByWallet
  rw [sessions_markSignatureUsed]

/-- C5 counterexample: on merging a second verified deposit into the session
`sess1` (totalCredits 10, remainingCredits 5), the stored session's
`totalCredits` becomes 13, but the success result reports 8 — the post-merge
`remainingCredits`, not the session's `totalCredits` as the claim states. -/
theorem c5_counterexample :
    (SessionManager.createSession mgr0 store1 "w1" "base" "tx1" 300 "USDC" true "f1" 500).1 =
      .success "s1" 8 86400500 "USDC" ∧
    StorageManager.getSession
      (SessionManager.createSession mgr0 store1 "w1" "base" "tx1" 300 "USDC" true "f1" 500).2 "s1" =
      some { sess1 with totalCredits := 13, remainingCredits := 8, expiresAt := 86400500 } ∧
    (SessionManager.createSession mgr0 store1 "w1" "base" "tx1" 300 "USDC" true "f1" 500).1 ≠
      .success "s1" 13 86400500 "USDC" := by decide

/-- C5 (amended): merging a second verified deposit for the same (wallet,
chain) while the existing session is unexpired adds
`floor(newDepositAmount / pricePerQuery)` to both `totalCredits` and
`remainingCredits`, resets `expiresAt` to `now + 24h`, and preserves the same
session id; the success result reports that session's id and its post-merge
`remainingCredits` (in the `totalCredits` field of the result). -/
theorem c5_merge (m : SessionManager) (st : Store) (w c sig : String)
    (amt : Int) (tok fid : String) (now : Int) (token : TokenConfig) (rcpt : String)
    (ex : Session)
    (hused : hasTransaction st c sig = false)
    (htok : SessionManager.getTokenConfig c tok = some token)
    (hrec : lookupAssoc m.recipientWallets c = some rcpt)
    (hrcpt : rcpt ≠ "")
    (hex : StorageManager.getSessionByWallet st w c = some ex)
    (hunexp : ex.expiresAt > now)
    (hcred : 1 ≤ Int.fdiv amt token.pricePerQuery) :
    SessionManager.createSession m st w c sig amt tok true fid now =
      (.success ex.id (ex.remainingCredits + Int.fdiv amt token.pricePerQuery)
         (now + SESSION_DURATION_MS) token.symbol,
       StorageManager.saveSession (StorageManager.markSignatureUsed st sig c)
         { ex with
           totalCredits := ex.totalCredits + Int.fdiv amt token.pricePerQuery,
           remainingCredits := ex.remainingCredits + Int.fdiv amt token.pricePerQuery,
           expiresAt := now + SESSION_DURATION_MS }) ∧
    StorageManager.getSession
      (SessionManager.createSession m st w c sig amt tok true fid now).2 ex.id =
      some { ex with
             totalCredits := ex.totalCredits + Int.fdiv amt token.pricePerQuery,
             remainingCredits := ex.remainingCredits + Int.fdiv amt token.pricePerQuery,
             expiresAt := now + SESSION_DURATION_MS } := by
  obtain ⟨ch, hch⟩ := getChain_of_getTokenConfig htok
  have hcred' : ¬ Int.fdiv amt token.pricePerQuery < 1 := by omega
  have hex' : StorageManager.getSessionByWallet
      (StorageManager.markSignatureUsed st sig c) w c = some ex := by
    rw [getSessionByWallet_mark]
    exact hex
  have hmain : SessionManager.createSession m st w c sig amt tok true fid now =
      (.success ex.id (ex.remainingCredits + Int.fdiv amt token.pricePerQuery)
         (now + SESSION_DURATION_MS) token.symbol,
       StorageManager.saveSession (StorageManager.markSignatureUsed st sig c)
         { ex with
           totalCredits := ex.totalCredits + Int.fdiv amt token.pricePerQuery,
           remainingCredits := ex.remainingCredits + Int.fdiv amt token.pricePerQuery,
           expiresAt := now + SESSION_DURATION_MS }) := by
    unfold SessionManager.createSession
    rw [hch, hused, htok, hrec]
    simp only [hrcpt, beq_iff_eq, if_neg, Bool.not_true, Bool.false_eq_true, if_false]
    rw [if_neg hcred', hex']
    simp [hunexp]
  refine ⟨hmain, ?_⟩
  rw [hmain]
  exact getSession_saveSession (StorageManager.markSignatureUsed st sig c) _

/-- Witness for C5 (amended) at the concrete merge of the counterexample. -/
theorem c5_merge_witness :
    SessionManager.createSession mgr0 store1 "w1" "base" "tx1" 300 "USDC" true "f1" 500 =
      (.success "s1" 8 86400500 "USDC",
       StorageManager.saveSession (StorageManager.markSignatureUsed store1 "tx1" "base")
         { sess1 with totalCredits := 13, remainingCredits := 8, expiresAt := 86400500 }) := by
  have h := (c5_merge mgr0 store1 "w1" "base" "tx1" 300 "USDC" "f1" 500
    { mint := "0x833589fCD6eDb6E08f4c7C32D4f71b54bdA02913",
      symbol := "USDC", decimals := 6, pricePerQuery := 100 }
    "rcpt-base" sess1 (by decide) (by decide) (by decide) (by decide) (by decide)
    (by decide) (by decide)).1
  exact h

theorem getSession_deleteSession (st : Store) (i : String) :
    StorageManager.getSession (StorageManager.deleteSession st i) i = none := by
  unfold StorageManager.getSession StorageManager.deleteSession
  rw [List.find?_eq_none]
  intro t ht
  have := (List.mem_filter.mp ht).2
  simpa using this

/-- An expired session fixture: expired at time 1000, queried later. -/
def sessExp : Session :=
  { id := "sE", walletAddress := "wE", chain := "base", depositTxSignature := "txE",
    depositToken := "USDC", totalCredits := 100, remainingCredits := 100,
    createdAt := 0, expiresAt := 1000, lastUsedAt := 0 }

/-- A store holding only the expired session `sessExp`. -/
def storeExp : Store := { sessions := [sessExp], usedSigs := [] }

/-- C6: looking up a session whose `expiresAt` has passed — by id via
`getSession`, or as the wallet+chain lookup result via `getSessionByWallet` —
returns null and eagerly deletes the stored record, after which no session
with that id remains in the store and any later `getSession` on that id
returns null, independently of the periodic sweep. -/
theorem c6_lazy_expiry (st : Store) (i w c : String) (now : Int) :
    (∀ s, StorageManager.getSession st i = some s → s.expiresAt < now →
      SessionManager.getSession st i now = (none, StorageManager.deleteSession st i) ∧
      (∀ t ∈ (StorageManager.deleteSession st i).sessions, t.id ≠ i) ∧
      (∀ now2, SessionManager.getSession (StorageManager.deleteSession st i) i now2 =
        (none, StorageManager.deleteSession st i))) ∧
    (∀ s, StorageManager.getSessionByWallet st w c = some s → s.expiresAt < now →
      SessionManager.getSessionByWallet st w c now = (none, StorageManager.deleteSession st s.id) ∧
      (∀ t ∈ (StorageManager.deleteSession st s.id).sessions, t.id ≠ s.id) ∧
      (∀ now2, SessionManager.getSession (StorageManager.deleteSession st s.id) s.id now2 =
        (none, StorageManager.deleteSession st s.id))) := by
  constructor
  · intro s h0 hexp
    refine ⟨?_, ?_, ?_⟩
    · unfold SessionManager.getSession
      rw [h0]
      simp [hexp]
    · intro t ht
      have := (List.mem_filter.mp ht).2
      simpa using this
    · intro now2
      unfold SessionManager.getSession
      rw [getSession_deleteSession]
  · intro s h0 hexp
    refine ⟨?_, ?_, ?_⟩
    · unfold SessionManager.getSessionByWallet
      rw [h0]
      simp [hexp]
    · intro t ht
      have := (List.mem_filter.mp ht).2
      simpa using this
    · intro now2
      unfold SessionManager.getSession
      rw [getSession_deleteSession]

/-- Witness for C6 on the expired session `sessExp` at time 5000. -/
theorem c6_lazy_expiry_witness :
    SessionManager.getSession storeExp "sE" 5000 = (none, StorageManager.deleteSession storeExp "sE") ∧
    SessionManager.getSessionByWallet storeExp "wE" "base" 5000 =
      (none, StorageManager.deleteSession storeExp "sE") ∧
    SessionManager.getSession (StorageManager.deleteSession storeExp "sE") "sE" 9999 =
      (none, StorageManager.deleteSession storeExp "sE") := by
  have h1 := (c6_lazy_expiry storeExp "sE" "wE" "base" 5000).1 sessExp (by decide) (by decide)
  have h2 := (c6_lazy_expiry storeExp "sE" "wE" "base" 5000).2 sessExp (by decide) (by decide)
  exact ⟨h1.1, h2.1, h1.2.2 9999⟩

theorem evmLogMatches_iff (mint recLower : String) (amt : Int) (log : EvmLog) :
    evmLogMatches mint recLower amt log = true ↔
      (strLower log.address = strLower mint ∧ 3 ≤ log.topics.length ∧
       ∃ topic2, log.topics.get? 2 = some topic2 ∧
         strLower ("0x" ++ strDrop topic2 26) = recLower ∧
         ∃ v, jsBigInt log.data = some v ∧ amt ≤ v) := by
  constructor
  · intro h
    unfold evmLogMatches at h
    split at h
    · cases h
    next h1 =>
      split at h
      · cases h
      next h2 =>
        split at h
        · cases h
        next topic2 ht =>
          split at h
          · cases h
          next h3 =>
            split at h
            · cases h
            next v hv =>
              refine ⟨by simpa using h1, by omega, topic2, ht, by simpa using h3,
                      v, hv, by simpa using h⟩
  · rintro ⟨h1, h2, topic2, ht, h3, v, hv, hle⟩
    unfold evmLogMatches
    rw [h1]
    simp only [bne_self_eq_false, Bool.false_eq_true, if_false]
    rw [if_neg (by omega), ht]
    dsimp only
    rw [h3]
    simp only [bne_self_eq_false, Bool.false_eq_true, if_false]
    rw [hv]
    simpa using hle

/-- C7: for an EVM-family chain, `verifyEVMDeposit` returns true iff the
receipt exists with status success and either (a) the token is the native
asset and the fetched transaction's direct recipient equals the expected
recipient (case-insensitively) with value at least the expected amount, or
(b) the token is a contract asset and some log emitted from that contract's
address decodes (topics[2], bytes 26 onward) to the expected recipient with a
transferred value at least the expected amount; malformed or irrelevant logs
are skipped rather than failing verification, and a non-success receipt is
never verified. -/
theorem c7_verifyEVMDeposit_spec (receipt : Option EvmReceipt) (tx : Option EvmTx)
    (recipient mint : String) (amt : Int) :
    verifyEVMDeposit receipt tx recipient mint amt = true ↔
      ∃ r, receipt = some r ∧ r.status = "success" ∧
        ((mint = "0x0000000000000000000000000000000000000000" ∧
          ∃ t, tx = some t ∧ ∃ d, t.toAddr = some d ∧
            strLower d = strLower recipient ∧ amt ≤ t.value) ∨
         (mint ≠ "0x0000000000000000000000000000000000000000" ∧
          ∃ log, log ∈ r.logs ∧
            strLower log.address = strLower mint ∧ 3 ≤ log.topics.length ∧
            ∃ topic2, log.topics.get? 2 = some topic2 ∧
              strLower ("0x" ++ strDrop topic2 26) = strLower recipient ∧
              ∃ v, jsBigInt log.data = some v ∧ amt ≤ v)) := by
  cases receipt with
  | none => simp [verifyEVMDeposit]
  | some r =>
    unfold verifyEVMDeposit
    simp only [Option.some.injEq]
    by_cases hs : r.status = "success"
    · rw [hs]
      simp only [bne_self_eq_false, Bool.false_eq_true, if_false]
      by_cases hm : mint = "0x0000000000000000000000000000000000000000"
      · have hmt : (mint == "0x0000000000000000000000000000000000000000") = true := by
          simp [hm]
        rw [hmt]
        simp only [if_true]
        cases tx with
        | none =>
          simp only [Bool.false_eq_true, false_iff]
          rintro ⟨r', rfl, -, ⟨-, t, ht, -⟩ | ⟨hm', -⟩⟩
          · cases ht
          · exact hm' hm
        | some t =>
          dsimp only
          cases htoAddr : t.toAddr with
          | none =>
            dsimp only
            simp only [Bool.false_eq_true, false_iff]
            rintro ⟨r', rfl, -, ⟨-, t', ht', d, hd, -⟩ | ⟨hm', -⟩⟩
            · cases ht'
              rw [htoAddr] at hd
              cases hd
            · exact hm' hm
          | some d =>
            dsimp only
            constructor
            · intro h
              rw [Bool.and_eq_true] at h
              refine ⟨r, rfl, hs, Or.inl ⟨hm, t, rfl, d, htoAddr, ?_, ?_⟩⟩
              · simpa using h.1
              · simpa using h.2
            · rintro ⟨r', hr', -, ⟨-, t', ht', d', hd', hlow, hle⟩ | ⟨hm', -⟩⟩
              · cases ht'
                rw [htoAddr] at hd'
                cases hd'
                rw [Bool.and_eq_true]
                exact ⟨by simpa using hlow, by simpa using hle⟩
              · exact absurd hm hm'
      · have hmt : (mint == "0x0000000000000000000000000000000000000000") = false := by
          simp [hm]
        rw [hmt]
        simp only [Bool.false_eq_true, if_false]
        rw [List.any_eq_true]
        constructor
        · rintro ⟨log, hmem, hmatch⟩
          exact ⟨r, rfl, hs,
            Or.inr ⟨hm, log, hmem, (evmLogMatches_iff mint (strLower recipient) amt log).mp hmatch⟩⟩
        · rintro ⟨r', hr', -, ⟨hm', -⟩ | ⟨-, log, hmem, hprops⟩⟩
          · exact absurd hm' hm
          · cases hr'
            exact ⟨log, hmem, (evmLogMatches_iff mint (strLower recipient) amt log).mpr hprops⟩
    · have hsne : (r.status != "success") = true := by simp [hs]
      rw [hsne]
      simp only [if_true, Bool.false_eq_true, false_iff]
      rintro ⟨r', rfl, hs', -⟩
      exact hs hs'

/-- C8: for a Solana-family chain with a configured connection, `verifyDeposit`
returns true iff the transaction fetched at confirmed commitment exists and
carries no execution error; the expected recipient, token address, and minimum
amount arguments never influence the result. -/
theorem c8_verifySolana_spec (w : World) (chainId sig recipient mint : String) (amt : Int)
    (hsol : isSolanaChain chainId = true)
    (hconn : solanaConnections.contains chainId = true) :
    (verifyDeposit w chainId sig recipient mint amt = true ↔
      ∃ tx, w.solanaTx = some tx ∧ tx.metaErr = false) ∧
    (∀ recipient2 mint2 : String, ∀ amt2 : Int,
      verifyDeposit w chainId sig recipient2 mint2 amt2 =
        verifyDeposit w chainId sig recipient mint amt) := by
  constructor
  · unfold verifyDeposit verifySolanaDeposit
    rw [hsol, hconn]
    simp only [if_true, Bool.not_true, Bool.false_eq_true, if_false]
    cases w.solanaTx with
    | none => simp
    | some tx =>
      dsimp only
      constructor
      · intro h
        exact ⟨tx, rfl, by simpa using h⟩
      · rintro ⟨tx', htx', herr⟩
        cases htx'
        simp [herr]
  · intro recipient2 mint2 amt2
    unfold verifyDeposit
    rw [hsol]
    simp

/-- Witness for C8 on `solana-devnet` with a fetched, error-free transaction. -/
theorem c8_verifySolana_spec_witness :
    verifyDeposit { solanaTx := some { metaErr := false }, receipt := none, tx := none }
      "solana-devnet" "sig" "r" "mint" 7 = true ∧
    verifyDeposit { solanaTx := some { metaErr := false }, receipt := none, tx := none }
      "solana-devnet" "sig" "other" "m2" 99 =
      verifyDeposit { solanaTx := some { metaErr := false }, receipt := none, tx := none }
        "solana-devnet" "sig" "r" "mint" 7 := by
  have h := c8_verifySolana_spec
    { solanaTx := some { metaErr := false }, receipt := none, tx := none }
    "solana-devnet" "sig" "r" "mint" 7 (by decide) (by decide)
  exact ⟨h.1.mpr ⟨{ metaErr := false }, rfl, rfl⟩, h.2 "other" "m2" 99⟩

/-- C9 counterexample: an unsupported token for a supported chain ("DOGE" on
`base`) is a domain conflict per the claim, yet `createSession` returns the
same null (not-verified) value as a plain verification failure — the two
outcomes are indistinguishable to the caller. -/
theorem c9_counterexample :
    SessionManager.createSession mgr0 emptyStore "w1" "base" "sig" 1000 "DOGE" true "id1" 0 =
      (.notVerified, emptyStore) ∧
    SessionManager.createSession mgr0 emptyStore "w1" "base" "sig" 1000 "USDC" false "id1" 0 =
      (.notVerified, emptyStore) ∧
    (SessionManager.createSession mgr0 emptyStore "w1" "base" "sig" 1000 "DOGE" true "id1" 0).1 =
      (SessionManager.createSession mgr0 emptyStore "w1" "base" "sig" 1000 "USDC" false "id1" 0).1 := by
  decide

/-- C9 (amended): the domain conflicts *transaction already consumed*,
*unsupported chain*, and *no recipient configured* each produce a
distinguishable error value, pairwise distinct and distinct from the
not-verified (null) result; an unsupported token for the chain instead
produces the same not-verified null as a verification failure. -/
theorem c9_domain_errors (m : SessionManager) (st : Store)
    (w c sig : String) (amt : Int) (tok fid : String) (now : Int) (v : Bool) :
    (getChain c = none →
      SessionManager.createSession m st w c sig amt tok v fid now =
        (.error "Unsupported chain", st)) ∧
    (∀ ch, getChain c = some ch → hasTransaction st c sig = true →
      SessionManager.createSession m st w c sig amt tok v fid now =
        (.error "Transaction already used", st)) ∧
    (∀ ch token, getChain c = some ch → hasTransaction st c sig = false →
      SessionManager.getTokenConfig c tok = some token →
      lookupAssoc m.recipientWallets c = none →
      SessionManager.createSession m st w c sig amt tok v fid now =
        (.error "No recipient configured for chain", st)) ∧
    (∀ ch, getChain c = some ch → hasTransaction st c sig = false →
      SessionManager.getTokenConfig c tok = none →
      SessionManager.createSession m st w c sig amt tok v fid now = (.notVerified, st)) ∧
    (CreateSessionResult.error "Unsupported chain" ≠ .notVerified ∧
     CreateSessionResult.error "Transaction already used" ≠ .notVerified ∧
     CreateSessionResult.error "No recipient configured for chain" ≠ .notVerified ∧
     CreateSessionResult.error "Unsupported chain" ≠ .error "Transaction already used" ∧
     CreateSessionResult.error "Unsupported chain" ≠ .error "No recipient configured for chain" ∧
     CreateSessionResult.error "Transaction already used" ≠ .error "No recipient configured for chain") := by
  refine ⟨?_, ?_, ?_, ?_, by decide⟩
  · intro hch
    unfold SessionManager.createSession
    rw [hch]
  · intro ch hch hused
    unfold SessionManager.createSession
    rw [hch, hused]
    rfl
  · intro ch token hch hused htok hrec
    unfold SessionManager.createSession
    rw [hch, hused, htok, hrec]
    rfl
  · intro ch hch hused htok
    unfold SessionManager.createSession
    rw [hch, hused, htok]
    rfl

/-- Witness for C9 (amended): the three error cases at concrete inputs. -/
theorem c9_domain_errors_witness :
    SessionManager.createSession mgr0 emptyStore "w1" "dogechain" "sig" 1000 "USDC" true "id1" 0 =
      (.error "Unsupported chain", emptyStore) ∧
    SessionManager.createSession mgr0 storeUsedEth "w1" "ethereum" "sigT" 1000 "USDC" true "id1" 0 =
      (.error "Transaction already used", storeUsedEth) ∧
    SessionManager.createSession mgr0 emptyStore "w1" "polygon" "sig" 1000 "USDC" true "id1" 0 =
      (.error "No recipient configured for chain", emptyStore) := by
  obtain ⟨ch1, hch1⟩ := Option.isSome_iff_exists.mp
    (show (getChain "ethereum").isSome = true by decide)
  obtain ⟨ch2, hch2⟩ := Option.isSome_iff_exists.mp
    (show (getChain "polygon").isSome = true by decide)
  obtain ⟨tk2, htk2⟩ := Option.isSome_iff_exists.mp
    (show (SessionManager.getTokenConfig "polygon" "USDC").isSome = true by decide)
  exact ⟨(c9_domain_errors mgr0 emptyStore "w1" "dogechain" "sig" 1000 "USDC" "id1" 0 true).1
           (by decide),
         (c9_domain_errors mgr0 storeUsedEth "w1" "ethereum" "sigT" 1000 "USDC" "id1" 0 true).2.1
           ch1 hch1 (by decide),
         (c9_domain_errors mgr0 emptyStore "w1" "polygon" "sig" 1000 "USDC" "id1" 0 true).2.2.1
           ch2 tk2 hch2 (by decide) htk2 (by decide)⟩

/-- A manager whose default chain is `base` and whose recipient map holds an
entry for an id that the registry does not know. -/
def mgrDefBase : SessionManager :=
  { recipientWallets := [("fakechain", "w-fk")], defaultChain := "base" }

/-- C10 counterexample: two chain ids outside the registry on which
`getPricingInfo` does not behave as the claim states — the empty string falls
back to the default chain (reporting that chain's name and a non-empty token
list), and a configured recipient for an unregistered id is reported rather
than absent. -/
theorem c10_counterexample :
    (SessionManager.getPricingInfo mgrDefBase (some "")).chain = "base" ∧
    (SessionManager.getPricingInfo mgrDefBase (some "")).supportedTokens ≠ [] ∧
    (SessionManager.getPricingInfo mgrDefBase (some "fakechain")).recipientWallet = some "w-fk" := by
  decide

theorem getChain_isSome_of_supported :
    ∀ k ∈ getSupportedChains, (getChain k).isSome = true := by
  decide

/-- C10 (amended): for every non-empty chain id the registry does not
recognize, and provided recipient wallets are configured only for registry
chain ids (as the server's startup configuration guarantees),
`getPricingInfo` does not fail: it returns that chain id, no recipient
wallet, the fixed 24-hour session duration, the full supported-chain list,
and an empty token list. -/
theorem c10_pricing_unknown_chain (m : SessionManager) (chainId : String)
    (hreg : ∀ p ∈ m.recipientWallets, p.1 ∈ getSupportedChains)
    (hnone : getChain chainId = none) (hne : chainId ≠ "") :
    SessionManager.getPricingInfo m (some chainId) =
      { chain := chainId, recipientWallet := none,
        sessionDurationMs := 24 * 60 * 60 * 1000,
        supportedChains := getSupportedChains, supportedTokens := [] } := by
  have hfind : m.recipientWallets.find? (fun p => p.1 == chainId) = none := by
    rw [List.find?_eq_none]
    intro p hp
    simp only [beq_iff_eq]
    intro hkey
    have hsup := hreg p hp
    rw [hkey] at hsup
    have := getChain_isSome_of_supported chainId hsup
    rw [hnone] at this
    cases this
  have hrec : lookupAssoc m.recipientWallets chainId = none := by
    unfold lookupAssoc
    rw [hfind]
    rfl
  have hbeq : (chainId == "") = false := by simpa using hne
  unfold SessionManager.getPricingInfo
  dsimp only
  rw [hbeq]
  simp only [Bool.false_eq_true, if_false, hrec, hnone]
  rfl

/-- Witness for C10 (amended) at the unregistered id `fantom` with the
server-style configuration `mgr0`. -/
theorem c10_pricing_unknown_chain_witness :
    SessionManager.getPricingInfo mgr0 (some "fantom") =
      { chain := "fantom", recipientWallet := none,
        sessionDurationMs := 24 * 60 * 60 * 1000,
        supportedChains := getSupportedChains, supportedTokens := [] } :=
  c10_pricing_unknown_chain mgr0 "fantom" (by decide) (by decide) (by decide)
